import Mathlib

/-!
Verification of the Fetch component (src/Fetch.tsx): a declarative
data-fetching adapter around a query engine.  We model the pure
orchestration core as Lean functions: the query-string builder, the
request executor's response handling, the cache-key derivation, the
single/multi render resolution, and the input-mode dispatch.
-/

/-- A JavaScript value as it flows through the component: null (also
covering undefined, since the source only tests with the loose
comparison against null), booleans, numbers, strings and arrays. -/
inductive JSVal where
  | jsNull
  | jsBool (b : Bool)
  | jsNum (n : Int)
  | jsStr (s : String)
  | jsArr (elems : List JSVal)

/-- The loose test written in the source as a comparison against null:
true exactly for null/undefined. -/
def isNullish : JSVal → Bool
  | .jsNull => true
  | _ => false

/-- JavaScript truthiness of a value, used by the source for the
conditional spread of the request body and for prop presence checks. -/
def truthy : JSVal → Bool
  | .jsNull => false
  | .jsBool b => b
  | .jsNum n => decide (n ≠ 0)
  | .jsStr s => decide (s ≠ "")
  | .jsArr _ => true

/-- The String(x) conversion used by the source on parameter values.
Array elements that are nullish join as the empty string, matching
Array.prototype.join. -/
def jsToString : JSVal → String
  | .jsNull => "null"
  | .jsBool b => if b then "true" else "false"
  | .jsNum n => toString n
  | .jsStr s => s
  | .jsArr l =>
      String.intercalate ","
        (l.attach.map fun p => if isNullish p.1 then "" else jsToString p.1)
decreasing_by
  have h := List.sizeOf_lt_of_mem p.2
  simp only [JSVal.jsArr.sizeOf_spec]
  omega

/-- Minimal JSON string escaping, for JSON.stringify on strings. -/
def jsonEscape (s : String) : String :=
  s.data.foldl
    (fun acc c =>
      acc ++
        (if c = '"' then "\\\""
         else if c = '\\' then "\\\\"
         else if c = '\n' then "\\n"
         else String.singleton c))
    ""

/-- JSON.stringify as applied by the source to the request body. -/
def jsonStringify : JSVal → String
  | .jsNull => "null"
  | .jsBool b => if b then "true" else "false"
  | .jsNum n => toString n
  | .jsStr s => "\"" ++ jsonEscape s ++ "\""
  | .jsArr l =>
      "[" ++ String.intercalate "," (l.attach.map fun p => jsonStringify p.1) ++ "]"
decreasing_by
  have h := List.sizeOf_lt_of_mem p.2
  simp only [JSVal.jsArr.sizeOf_spec]
  omega

/-- Upper-case hexadecimal digit for percent-encoding. -/
def hexDigit (n : Nat) : Char :=
  if n < 10 then Char.ofNat (48 + n) else Char.ofNat (65 + (n - 10))

/-- Two-digit hexadecimal rendering of a byte. -/
def byteToHex (b : Nat) : String :=
  String.singleton (hexDigit (b / 16 % 16)) ++ String.singleton (hexDigit (b % 16))

/-- UTF-8 bytes of a character, for percent-encoding. -/
def utf8Bytes (c : Char) : List Nat :=
  let n := c.toNat
  if n < 128 then [n]
  else if n < 2048 then [192 + n / 64, 128 + n % 64]
  else if n < 65536 then [224 + n / 4096, 128 + n / 64 % 64, 128 + n % 64]
  else [240 + n / 262144, 128 + n / 4096 % 64, 128 + n / 64 % 64, 128 + n % 64]

/-- Characters the urlencoded serializer leaves unescaped. -/
def isUnreservedChar (c : Char) : Bool :=
  c.isAlphanum || c = '*' || c = '-' || c = '.' || c = '_'

/-- Encoding of one character under application/x-www-form-urlencoded,
as URLSearchParams.toString performs it. -/
def formEncodeChar (c : Char) : String :=
  if isUnreservedChar c then String.singleton c
  else if c = ' ' then "+"
  else String.join ((utf8Bytes c).map fun b => "%" ++ byteToHex b)

/-- Encoding of a whole string under application/x-www-form-urlencoded. -/
def formEncode (s : String) : String :=
  String.join (s.data.map formEncodeChar)

/-- The query-string entries one params entry contributes, in order, as
appended to the URLSearchParams accumulator by buildQueryString: a
nullish value contributes nothing, an array contributes one entry per
non-nullish element under the same key, anything else one entry. -/
def entryPairs (k : String) (v : JSVal) : List (String × String) :=
  if isNullish v then []
  else
    match v with
    | .jsArr items =>
        (items.filter fun it => !isNullish it).map fun it => (k, jsToString it)
    | _ => [(k, jsToString v)]

/-- All entries appended by buildQueryString over the params mapping,
preserving entry order.  A JS object's entries are modelled as an
association list in insertion order. -/
def buildQueryPairs (params : List (String × JSVal)) : List (String × String) :=
  params.foldr (fun kv acc => entryPairs kv.1 kv.2 ++ acc) []

/-- URLSearchParams.toString over an ordered list of appended pairs. -/
def pairsToString (l : List (String × String)) : String :=
  String.intercalate "&" (l.map fun kv => formEncode kv.1 ++ "=" ++ formEncode kv.2)

/-- buildQueryString from the source: append entries per params entry,
then serialize. -/
def buildQueryString (params : List (String × JSVal)) : String :=
  pairsToString (buildQueryPairs params)

/-- The module-wide base address constant from the source. -/
def BASE_URL : String := "http://localhost:8000"

/-- The target address computed by makeFetchRequest: with params
supplied the base, locator, a question mark and the built query string
are concatenated (even when the query string is empty); without params
the address is just base and locator. -/
def buildUrl (url : String) (params : Option (List (String × JSVal))) : String :=
  match params with
  | some p => BASE_URL ++ url ++ "?" ++ buildQueryString p
  | none => BASE_URL ++ url

/-- The body carried by the request: the source spreads a body field
only when the body argument is truthy, serializing it with
JSON.stringify; otherwise the request carries no body. -/
def requestBody (body : Option JSVal) : Option String :=
  match body with
  | some b => if truthy b then some (jsonStringify b) else none
  | none => none

/-- The request handed to the transport by makeFetchRequest. -/
structure FetchRequest where
  address : String
  method : String
  headers : List (String × String)
  body : Option String

/-- Assembly of the transport request in makeFetchRequest. -/
def buildRequest (url : String) (method : String)
    (params : Option (List (String × JSVal))) (body : Option JSVal) : FetchRequest :=
  { address := buildUrl url params
  , method := method
  , headers := [("Content-Type", "application/json"), ("Accept", "application/json")]
  , body := requestBody body }

/-- What the transport hands back: status code, the declared content
type header (absent modelled as none), and the two body readers
(text and parsed JSON) the source may invoke. -/
structure TransportResponse where
  status : Nat
  contentType : Option String
  bodyText : String
  jsonBody : JSVal

/-- The failures makeFetchRequest can raise while handling a response:
an HTTP failure carrying status and raw body text, or a success
response whose declared content type is not JSON. -/
inductive FetchErr where
  | httpError (status : Nat) (bodyText : String)
  | unexpectedContentType (contentType : Option String) (bodyText : String)

/-- The ok flag of a fetch Response: status in the 2xx range. -/
def responseOk (status : Nat) : Bool :=
  decide (200 ≤ status ∧ status < 300)

/-- The content-type test from the source: the header must be present
and must contain the substring application/json. -/
def isJsonContentType : Option String → Bool
  | none => false
  | some ct => decide (2 ≤ (ct.splitOn "application/json").length)

/-- Response handling of makeFetchRequest: a non-ok status fails with
the HTTP error (after reading the body as text); an ok status with a
non-JSON content type fails with the content-type error; otherwise the
parsed JSON body is returned. -/
def handleResponse (resp : TransportResponse) : Except FetchErr JSVal :=
  if !responseOk resp.status then
    .error (.httpError resp.status resp.bodyText)
  else if !isJsonContentType resp.contentType then
    .error (.unexpectedContentType resp.contentType resp.bodyText)
  else
    .ok resp.jsonBody

/-- The tri-state of one cached query slot as the component observes
it through the query engine. -/
inductive FetchState where
  | loading
  | failed (e : String)
  | succeeded (d : JSVal)

/-- The isLoading flag of a slot. -/
def FetchState.isLoadingFlag : FetchState → Bool
  | .loading => true
  | _ => false

/-- The error field of a slot (none when no error). -/
def FetchState.errorOf : FetchState → Option String
  | .failed e => some e
  | _ => none

/-- The data field of a slot: undefined (none) unless it succeeded. -/
def FetchState.dataOf : FetchState → Option JSVal
  | .succeeded d => some d
  | _ => none

/-- The aggregate loading determination over the ordered slot results:
with waitForAll the source asks whether some slot is loading, without
it whether every slot is loading. -/
def aggIsLoading (waitForAll : Bool) (slots : List FetchState) : Bool :=
  if waitForAll then slots.any (·.isLoadingFlag)
  else slots.all (·.isLoadingFlag)

/-- The error surfaced by the aggregator: the error of the first slot,
in input order, whose error field is set. -/
def firstError (slots : List FetchState) : Option String :=
  (slots.find? fun r => r.errorOf.isSome).bind (·.errorOf)

/-- The single output a render produces: the error view applied to an
error, the loading view, or the result of the success callback on the
resolved data. -/
inductive RenderOut (α : Type) where
  | errView (e : String)
  | loadView
  | okView (d : α)

/-- Whether a render output is the error view. -/
def RenderOut.isErr : RenderOut α → Bool
  | .errView _ => true
  | _ => false

/-- Whether a render output is the loading view. -/
def RenderOut.isLoad : RenderOut α → Bool
  | .loadView => true
  | _ => false

/-- Whether a render output is the success branch. -/
def RenderOut.isOk : RenderOut α → Bool
  | .okView _ => true
  | _ => false

/-- The multi-locator render of the Fetch component: the first slot
error takes the error view; otherwise the loading view when the
aggregate is loading and a loading view is set; otherwise the success
callback on the ordered list of the slot data fields. -/
def multiRender (waitForAll hasLoadingView : Bool) (slots : List FetchState) :
    RenderOut (List (Option JSVal)) :=
  match firstError slots with
  | some e => .errView e
  | none =>
      if aggIsLoading waitForAll slots && hasLoadingView then .loadView
      else .okView (slots.map (·.dataOf))

/-- The single-locator render of the Fetch component: error view on an
error; loading view when loading with a loading view set; otherwise
the success callback on the data field. -/
def singleRender (hasLoadingView : Bool) (st : FetchState) : RenderOut (Option JSVal) :=
  match st.errorOf with
  | some e => .errView e
  | none =>
      if st.isLoadingFlag && hasLoadingView then .loadView
      else .okView st.dataOf

/-- A cache key: either the tuple the source derives from locator,
method, params and body, or a caller-supplied key treated as opaque. -/
inductive QueryKey where
  | derived (url : String) (method : String)
      (params : Option (List (String × JSVal))) (body : Option JSVal)
  | custom (parts : List String)

/-- The caller-facing query configuration, reduced to the field the
orchestrators consult: an optional explicit key. -/
structure QueryOpts where
  queryKey : Option QueryKey

/-- The key of the single-locator slot: the explicit key of the query
configuration when set (the nullish-coalescing in the source),
otherwise the derived tuple. -/
def singleQueryKey (opts : Option QueryOpts) (url method : String)
    (params : Option (List (String × JSVal))) (body : Option JSVal) : QueryKey :=
  ((opts.bind (·.queryKey)).getD (.derived url method params body))

/-- The key of each multi-locator slot: the source spreads the query
configuration first and then assigns the derived tuple, so the derived
key always wins. -/
def multiQueryKey (_opts : Option QueryOpts) (url method : String)
    (params : Option (List (String × JSVal))) (body : Option JSVal) : QueryKey :=
  .derived url method params body

/-- The mode the component dispatches to. -/
inductive FetchMode where
  | single (url : String)
  | multi (urls : List String)
  | advanced (opts : QueryOpts)

/-- Dispatch after the url prop was found falsy: a supplied urls array
(truthy even when empty) selects the multi mode, else a supplied query
configuration the advanced mode, else none (the configuration error
thrown synchronously at the end of the component body). -/
def modeFromUrls (urls : Option (List String)) (opts : Option QueryOpts) :
    Option FetchMode :=
  match urls with
  | some us => some (.multi us)
  | none =>
      match opts with
      | some q => some (.advanced q)
      | none => none

/-- The input-mode dispatch of the Fetch component: a truthy url prop
(a supplied, non-empty string) selects the single mode; otherwise the
urls and query-configuration checks run in order; none means the
synchronous configuration error. -/
def selectMode (url : Option String) (urls : Option (List String))
    (opts : Option QueryOpts) : Option FetchMode :=
  match url with
  | some u => if u = "" then modeFromUrls urls opts else some (.single u)
  | none => modeFromUrls urls opts

/-- A slot's isLoading flag is set exactly on the Loading state. -/
theorem isLoadingFlag_iff (s : FetchState) :
    s.isLoadingFlag = true ↔ s = FetchState.loading := by
  cases s <;> simp [FetchState.isLoadingFlag]

/-- find? over the slot list locates the first failed slot when all
slots before it carry no error. -/
theorem find?_append_failed (pre rest : List FetchState) (e : String)
    (h : ∀ s ∈ pre, s.errorOf = none) :
    (pre ++ FetchState.failed e :: rest).find? (fun r => r.errorOf.isSome)
      = some (FetchState.failed e) := by
  induction pre with
  | nil => simp [List.find?, FetchState.errorOf]
  | cons a t ih =>
      have ha := h a (List.mem_cons_self a t)
      simp [List.find?_cons, ha,
        ih (fun s hs => h s (List.mem_cons_of_mem a hs))]

/-- With no slot in error, the aggregator surfaces no error. -/
theorem firstError_eq_none (slots : List FetchState)
    (h : ∀ s ∈ slots, s.errorOf = none) : firstError slots = none := by
  have hf : slots.find? (fun r => r.errorOf.isSome) = none := by
    rw [List.find?_eq_none]
    intro x hx
    simp [h x hx]
  simp [firstError, hf]

/-- C1: under waitForAll the aggregate loading determination is true
exactly when some slot is Loading; under the default policy exactly
when every slot is Loading. -/
theorem c1_wait_policy_loading (slots : List FetchState) :
    (aggIsLoading true slots = true ↔ ∃ s ∈ slots, s = FetchState.loading) ∧
    (aggIsLoading false slots = true ↔ ∀ s ∈ slots, s = FetchState.loading) := by
  constructor
  · simp [aggIsLoading, List.any_eq_true, isLoadingFlag_iff]
  · simp [aggIsLoading, List.all_eq_true, isLoadingFlag_iff]

/-- Witness for C1 at a concrete slot list. -/
theorem c1_wait_policy_loading_witness :
    aggIsLoading true [FetchState.loading, FetchState.failed "e"] = true :=
  (c1_wait_policy_loading [FetchState.loading, FetchState.failed "e"]).1.mpr
    ⟨FetchState.loading, by simp, rfl⟩

/-- C2: whenever a failed slot exists, the multi-resource render is the
error view for the first failed slot in input order, for either wait
policy, and so neither the loading view nor the success callback. -/
theorem c2_first_error_wins (waitForAll hasLoadingView : Bool)
    (pre rest : List FetchState) (e : String)
    (hpre : ∀ s ∈ pre, s.errorOf = none) :
    multiRender waitForAll hasLoadingView (pre ++ FetchState.failed e :: rest)
      = RenderOut.errView e := by
  have hf := find?_append_failed pre rest e hpre
  have hfe : firstError (pre ++ FetchState.failed e :: rest) = some e := by
    rw [firstError, hf]
    rfl
  unfold multiRender
  rw [hfe]

/-- Witness for C2: first slot Failed, second Succeeded, default wait
policy, the error view for the first slot results. -/
theorem c2_first_error_wins_witness :
    multiRender false true
      ([] ++ FetchState.failed "boom" :: [FetchState.succeeded (JSVal.jsStr "ok")])
      = RenderOut.errView "boom" :=
  c2_first_error_wins false true [] [FetchState.succeeded (JSVal.jsStr "ok")] "boom"
    (by simp)

/-- C3: with no failed slot and the aggregate not loading under the
chosen policy, the success callback receives the slot data in input
order, none standing for the undefined placeholder of a slot that has
not settled and the payload for a succeeded slot. -/
theorem c3_success_data_order (waitForAll hasLoadingView : Bool)
    (slots : List FetchState)
    (herr : ∀ s ∈ slots, s.errorOf = none)
    (hload : aggIsLoading waitForAll slots = false) :
    multiRender waitForAll hasLoadingView slots
      = RenderOut.okView (slots.map (·.dataOf)) ∧
    ∀ i, (h : i < slots.length) →
      (slots[i] = FetchState.loading → (slots.map (·.dataOf))[i]? = some none) ∧
      (∀ d, slots[i] = FetchState.succeeded d →
        (slots.map (·.dataOf))[i]? = some (some d)) := by
  refine ⟨?_, ?_⟩
  · simp [multiRender, firstError_eq_none slots herr, hload]
  · intro i h
    have hge : slots[i]? = some slots[i] := List.getElem?_eq_getElem h
    constructor
    · intro hl
      rw [List.getElem?_map, hge, hl]
      rfl
    · intro d hd
      rw [List.getElem?_map, hge, hd]
      rfl

/-- Witness for C3, Scenario C: slot 1 Succeeded with data, slot 2
still Loading, default wait policy, the success callback receives the
payload then the undefined placeholder. -/
theorem c3_success_data_order_witness :
    multiRender false true [FetchState.succeeded (JSVal.jsStr "d1"), FetchState.loading]
      = RenderOut.okView [some (JSVal.jsStr "d1"), none] := by
  have h := c3_success_data_order false true
    [FetchState.succeeded (JSVal.jsStr "d1"), FetchState.loading]
    (by simp [FetchState.errorOf]) (by decide)
  simpa using h.1

/-- buildQueryPairs distributes over concatenation of the params list. -/
theorem buildQueryPairs_append (xs ys : List (String × JSVal)) :
    buildQueryPairs (xs ++ ys) = buildQueryPairs xs ++ buildQueryPairs ys := by
  induction xs with
  | nil => rfl
  | cons a t ih =>
      show entryPairs a.1 a.2 ++ buildQueryPairs (t ++ ys)
        = entryPairs a.1 a.2 ++ buildQueryPairs t ++ buildQueryPairs ys
      rw [ih, List.append_assoc]

/-- buildQueryPairs peels one params entry at a time. -/
theorem buildQueryPairs_cons (kv : String × JSVal) (l : List (String × JSVal)) :
    buildQueryPairs (kv :: l) = entryPairs kv.1 kv.2 ++ buildQueryPairs l := rfl

/-- A nullish params value contributes no entry. -/
theorem entryPairs_null (k : String) : entryPairs k JSVal.jsNull = [] := rfl

/-- An array params value contributes the filtered, stringified
elements under the same key. -/
theorem entryPairs_arr (k : String) (items : List JSVal) :
    entryPairs k (JSVal.jsArr items)
      = (items.filter fun it => !isNullish it).map fun it => (k, jsToString it) := rfl

/-- isNullish holds on the null value. -/
theorem isNullish_jsNull : isNullish JSVal.jsNull = true := rfl

/-- A non-nullish non-array value contributes exactly one entry. -/
theorem entryPairs_scalar (k : String) (v : JSVal)
    (h1 : isNullish v = false) (h2 : ∀ l, v ≠ JSVal.jsArr l) :
    entryPairs k v = [(k, jsToString v)] := by
  cases v with
  | jsNull => simp [isNullish] at h1
  | jsArr l => exact absurd rfl (h2 l)
  | jsBool b => rfl
  | jsNum n => rfl
  | jsStr s => rfl

/-- C4: a nullish params entry contributes nothing; an array entry of
shape a, null, b with a and b non-null contributes exactly the entries
for a then b under the same key; any other entry contributes exactly
one stringified entry. -/
theorem c4_query_entries (pre post : List (String × JSVal)) (k : String) (a b : JSVal)
    (ha : isNullish a = false) (hb : isNullish b = false) :
    buildQueryPairs (pre ++ (k, JSVal.jsNull) :: post) = buildQueryPairs (pre ++ post) ∧
    buildQueryPairs (pre ++ (k, JSVal.jsArr [a, JSVal.jsNull, b]) :: post)
      = buildQueryPairs pre
          ++ ((k, jsToString a) :: (k, jsToString b) :: buildQueryPairs post) ∧
    ∀ v, isNullish v = false → (∀ l, v ≠ JSVal.jsArr l) →
      buildQueryPairs (pre ++ (k, v) :: post)
        = buildQueryPairs pre ++ ((k, jsToString v) :: buildQueryPairs post) := by
  have hsplit : ∀ kv : String × JSVal,
      buildQueryPairs (pre ++ kv :: post)
        = buildQueryPairs pre ++ (entryPairs kv.1 kv.2 ++ buildQueryPairs post) := by
    intro kv
    rw [buildQueryPairs_append, buildQueryPairs_cons]
  refine ⟨?_, ?_, ?_⟩
  · rw [hsplit, entryPairs_null, buildQueryPairs_append]
    simp
  · have hfilter : [a, JSVal.jsNull, b].filter (fun it => !isNullish it) = [a, b] := by
      simp [List.filter_cons, ha, hb, isNullish_jsNull]
    rw [hsplit, entryPairs_arr, hfilter]
    simp
  · intro v h1 h2
    rw [hsplit, entryPairs_scalar k v h1 h2]
    simp

/-- Witness for C4: one non-null scalar before, an array entry of shape
a, null, b contributing a then b. -/
theorem c4_query_entries_witness :
    buildQueryPairs [("x", JSVal.jsStr "1"),
        ("tag", JSVal.jsArr [JSVal.jsStr "a", JSVal.jsNull, JSVal.jsStr "b"])]
      = [("x", "1"), ("tag", "a"), ("tag", "b")] := by
  have h := c4_query_entries [("x", JSVal.jsStr "1")] [] "tag"
    (JSVal.jsStr "a") (JSVal.jsStr "b") rfl rfl
  show buildQueryPairs ([("x", JSVal.jsStr "1")]
      ++ ("tag", JSVal.jsArr [JSVal.jsStr "a", JSVal.jsNull, JSVal.jsStr "b"]) :: [])
    = [("x", "1"), ("tag", "a"), ("tag", "b")]
  rw [h.2.1]
  simp [buildQueryPairs, entryPairs, jsToString, isNullish]

/-- C5: response handling fails with the HTTP error carrying status and
body text exactly on a non-2xx status; on a 2xx status with a non-JSON
declared content type it fails with the content-type error; otherwise
it returns the parsed JSON body. -/
theorem c5_response_envelope (resp : TransportResponse) :
    (handleResponse resp = Except.error (FetchErr.httpError resp.status resp.bodyText)
      ↔ responseOk resp.status = false) ∧
    (handleResponse resp
        = Except.error (FetchErr.unexpectedContentType resp.contentType resp.bodyText)
      ↔ responseOk resp.status = true ∧ isJsonContentType resp.contentType = false) ∧
    (handleResponse resp = Except.ok resp.jsonBody
      ↔ responseOk resp.status = true ∧ isJsonContentType resp.contentType = true) := by
  cases h1 : responseOk resp.status <;> cases h2 : isJsonContentType resp.contentType <;>
    simp [handleResponse, h1, h2]

/-- Witness for C5, Scenario B: a 404 with text body fails with the
HTTP error carrying status 404 and that body text. -/
theorem c5_response_envelope_witness :
    handleResponse ⟨404, none, "not found", JSVal.jsNull⟩
      = Except.error (FetchErr.httpError 404 "not found") :=
  (c5_response_envelope ⟨404, none, "not found", JSVal.jsNull⟩).1.mpr (by decide)

/-- C7: the resolver yields exactly one of the three outputs, error
first on a failed state, then the loading view on a loading state with
a loading view set, then the success callback; on an unchanged state
the same branch results. -/
theorem c7_resolver_branches (hasLoadingView : Bool) (st : FetchState) :
    ((singleRender hasLoadingView st).isErr = true ∨
     (singleRender hasLoadingView st).isLoad = true ∨
     (singleRender hasLoadingView st).isOk = true) ∧
    ((singleRender hasLoadingView st).isErr = true ↔ ∃ e, st = FetchState.failed e) ∧
    ((singleRender hasLoadingView st).isLoad = true
      ↔ st = FetchState.loading ∧ hasLoadingView = true) ∧
    ((singleRender hasLoadingView st).isOk = true
      ↔ (st = FetchState.loading ∧ hasLoadingView = false)
        ∨ ∃ d, st = FetchState.succeeded d) ∧
    singleRender hasLoadingView st = singleRender hasLoadingView st := by
  cases st <;> cases hasLoadingView <;>
    simp [singleRender, FetchState.errorOf, FetchState.isLoadingFlag,
      RenderOut.isErr, RenderOut.isLoad, RenderOut.isOk]

/-- Witness for C7 on a failed state: the error branch is taken. -/
theorem c7_resolver_branches_witness :
    (singleRender true (FetchState.failed "x")).isErr = true :=
  (c7_resolver_branches true (FetchState.failed "x")).2.1.mpr ⟨"x", rfl⟩

/-- C6 counterexample: with an explicit key in the query configuration,
the multi-resource slot key is still the derived tuple, not the
explicit key, because the source assigns the derived key after
spreading the configuration. -/
theorem c6_explicit_key_counterexample :
    multiQueryKey (some ⟨some (QueryKey.custom ["mine"])⟩) "/a" "GET" none none
      ≠ QueryKey.custom ["mine"] ∧
    multiQueryKey (some ⟨some (QueryKey.custom ["mine"])⟩) "/a" "GET" none none
      = QueryKey.derived "/a" "GET" none none :=
  ⟨fun h => QueryKey.noConfusion h, rfl⟩

/-- C6 amended: the derived key is a function of locator, method,
params and body alone and distinct fields give distinct keys; an
explicit key overrides it in the single-resource orchestrator only,
while the multi-resource orchestrator always uses the derived key. -/
theorem c6_cache_key (opts : Option QueryOpts) (k : QueryKey) (u m : String)
    (p : Option (List (String × JSVal))) (b : Option JSVal) :
    singleQueryKey (some ⟨some k⟩) u m p b = k ∧
    singleQueryKey (some ⟨none⟩) u m p b = QueryKey.derived u m p b ∧
    singleQueryKey none u m p b = QueryKey.derived u m p b ∧
    multiQueryKey opts u m p b = QueryKey.derived u m p b ∧
    ∀ u2 m2 p2 b2,
      QueryKey.derived u m p b = QueryKey.derived u2 m2 p2 b2
        ↔ u = u2 ∧ m = m2 ∧ p = p2 ∧ b = b2 := by
  refine ⟨rfl, rfl, rfl, rfl, ?_⟩
  intro u2 m2 p2 b2
  simp

/-- Witness for the amended C6 at a concrete explicit key. -/
theorem c6_cache_key_witness :
    singleQueryKey (some ⟨some (QueryKey.custom ["k"])⟩) "/u" "GET" none none
      = QueryKey.custom ["k"] :=
  (c6_cache_key none (QueryKey.custom ["k"]) "/u" "GET" none none).1

/-- C8 counterexample: a supplied but falsy body (here the boolean
false) is present yet the request carries no body, because the source
spreads the body field only on a truthy body argument. -/
theorem c8_body_truthiness_counterexample :
    (some (JSVal.jsBool false) : Option JSVal).isSome = true ∧
    (buildRequest "/a" "POST" none (some (JSVal.jsBool false))).body = none :=
  ⟨rfl, rfl⟩

/-- C8 amended: a truthy body argument is carried as exactly its JSON
serialization; a falsy or absent body argument leaves the request with
no body at all. -/
theorem c8_body_serialization (url method : String)
    (params : Option (List (String × JSVal))) (b : JSVal) :
    (truthy b = true →
      (buildRequest url method params (some b)).body = some (jsonStringify b)) ∧
    (truthy b = false → (buildRequest url method params (some b)).body = none) ∧
    (buildRequest url method params none).body = none := by
  refine ⟨fun h => ?_, fun h => ?_, rfl⟩ <;>
    simp [buildRequest, requestBody, h]

/-- Witness for the amended C8 with a truthy boolean body. -/
theorem c8_body_serialization_witness :
    (buildRequest "/a" "POST" none (some (JSVal.jsBool true))).body = some "true" := by
  have h := (c8_body_serialization "/a" "POST" none (JSVal.jsBool true)).1 (by decide)
  rw [h]
  simp [jsonStringify]

/-- After the url check fails, a supplied urls array or query
configuration yields a mode. -/
theorem modeFromUrls_isSome (us : Option (List String)) (q : Option QueryOpts)
    (h : us.isSome = true ∨ q.isSome = true) : (modeFromUrls us q).isSome = true := by
  cases us with
  | some x => rfl
  | none =>
      cases q with
      | some y => rfl
      | none => simp at h

/-- C9 counterexample: a supplied empty-string url is falsy, so with no
urls and no query configuration the component still reaches the
synchronous configuration error even though a locator was supplied. -/
theorem c9_empty_locator_counterexample :
    (some "" : Option String).isSome = true ∧ selectMode (some "") none none = none :=
  ⟨rfl, rfl⟩

/-- C9 amended: with none of the three inputs supplied the dispatch
reaches the synchronous configuration error; with a truthy input
supplied (a non-empty locator string, any urls array, or any query
configuration) a mode is selected and no error is raised. -/
theorem c9_config_error (url : Option String) (urls : Option (List String))
    (opts : Option QueryOpts) :
    selectMode none none none = none ∧
    ((∃ u, url = some u ∧ u ≠ "") ∨ urls.isSome = true ∨ opts.isSome = true →
      (selectMode url urls opts).isSome = true) := by
  refine ⟨rfl, ?_⟩
  rintro (⟨u, rfl, hu⟩ | h | h)
  · simp [selectMode, hu]
  · have hm := modeFromUrls_isSome urls opts (Or.inl h)
    cases url with
    | none => simpa [selectMode] using hm
    | some u => by_cases hu : u = "" <;> simp [selectMode, hu, hm]
  · have hm := modeFromUrls_isSome urls opts (Or.inr h)
    cases url with
    | none => simpa [selectMode] using hm
    | some u => by_cases hu : u = "" <;> simp [selectMode, hu, hm]

/-- Witness for the amended C9 with a non-empty locator. -/
theorem c9_config_error_witness :
    (selectMode (some "/api/users") none none).isSome = true :=
  (c9_config_error (some "/api/users") none none).2
    (Or.inl ⟨"/api/users", rfl, by decide⟩)

/-- C10 counterexample: with no params, a locator that itself contains
a question mark yields an address containing one, so the separator is
not equivalent to params being supplied. -/
theorem c10_question_mark_counterexample :
    (none : Option (List (String × JSVal))).isSome = false ∧
    '?' ∈ (buildUrl "/a?x=1" none).data := by
  refine ⟨rfl, ?_⟩
  show '?' ∈ (BASE_URL ++ "/a?x=1").data
  decide

/-- C10 amended: for a locator without a question mark of its own, the
address contains one exactly when params is supplied; with params the
address is base, locator, separator and built query string even when
the query string is empty; without params it is base and locator. -/
theorem c10_address_separator (url : String) (params : Option (List (String × JSVal)))
    (h : '?' ∉ url.data) :
    ('?' ∈ (buildUrl url params).data ↔ params.isSome = true) ∧
    (∀ p, params = some p →
      buildUrl url params = BASE_URL ++ url ++ "?" ++ buildQueryString p) ∧
    (params = none → buildUrl url params = BASE_URL ++ url) ∧
    buildQueryString ([] : List (String × JSVal)) = "" := by
  have hbase : '?' ∉ BASE_URL.data := by decide
  refine ⟨?_, ?_, ?_, rfl⟩
  · cases params with
    | none =>
        show '?' ∈ (BASE_URL ++ url).data ↔ (none : Option (List (String × JSVal))).isSome = true
        rw [String.data_append]
        simp only [List.mem_append, Option.isSome_none, Bool.false_eq_true, iff_false]
        rintro (hc | hc)
        · exact hbase hc
        · exact h hc
    | some p =>
        show '?' ∈ (BASE_URL ++ url ++ "?" ++ buildQueryString p).data
          ↔ (some p).isSome = true
        refine iff_of_true ?_ rfl
        rw [String.data_append, String.data_append]
        exact List.mem_append_left _ (List.mem_append_right _ (by decide))
  · intro p hp
    rw [hp]
    rfl
  · intro hp
    rw [hp]
    rfl

/-- Witness for the amended C10: params supplied and empty still puts
the separator in the address. -/
theorem c10_address_separator_witness :
    '?' ∈ (buildUrl "/api/users" (some [])).data :=
  (c10_address_separator "/api/users" (some []) (by decide)).1.mpr rfl
